import Mathlib

/-!
# DevQueryCallback: the native call forwarder of DeviceTools.DevQueryHelper

Source: `src/DeviceTools/DeviceTools.DevQueryHelper/DevQueryCallback.c`.

The C function receives `(hDevQuery, pContext, pActionData)` from the device-query
API, returns at once when `pContext` is `NULL`, and otherwise reads the two fields
of the `ContextWrapper` that `pContext` points to and calls
`ctx->Callback(hDevQuery, ctx->Context, pActionData)`.

The embedding is state passing.  Pointers and handles are their addresses.  The
memory holds the `ContextWrapper` objects of the caller and the other words the
caller owns.  The callbacks are code of the caller, so they are a parameter: a
table from function addresses to bodies, each body a function on the memory that
either returns or raises.  Every indirect call made by the forwarder is recorded
in a trace, which the callbacks cannot touch, so that "which calls were made, with
which arguments, in which order" can be stated.
-/

namespace DevQueryHelper

/-! ## Data model -/

/-- Untyped pointer `PVOID`, represented by its address. -/
abbrev PVOID := Nat

/-- The null pointer. -/
def NULL : PVOID := 0

/-- Handle `HDEVQUERY` of a device query in flight. -/
abbrev HDEVQUERY := Nat

/-- Pointer `const DEV_QUERY_RESULT_ACTION_DATA*` to the payload of one event. -/
abbrev PDEV_QUERY_RESULT_ACTION_DATA := Nat

/-- Function pointer `PDEV_QUERY_RESULT_CALLBACK`, represented by its address. -/
abbrev PDEV_QUERY_RESULT_CALLBACK := Nat

/-- The struct `ContextWrapper` (lines 4-8 of the source). -/
structure ContextWrapper where
  Callback : PDEV_QUERY_RESULT_CALLBACK
  Context : PVOID
deriving DecidableEq, Repr

/-- Memory of the process, as far as the forwarder and the callbacks see it: the
`ContextWrapper` objects by address, and the other words by address. The first
entry for an address is the live one. -/
structure Memory where
  wrappers : List (PVOID × ContextWrapper)
  cells : List (PVOID × Nat)
deriving DecidableEq, Repr

/-- The `ContextWrapper` object that lives at address `p`, when there is one. -/
def Memory.wrapperAt (m : Memory) (p : PVOID) : Option ContextWrapper :=
  m.wrappers.lookup p

/-- One call through a function pointer: the target and its three arguments. -/
structure Invocation where
  target : PDEV_QUERY_RESULT_CALLBACK
  hDevQuery : HDEVQUERY
  pContext : PVOID
  pActionData : PDEV_QUERY_RESULT_ACTION_DATA
deriving DecidableEq, Repr

/-- A failure raised inside a callback, by its code. -/
abbrev Failure := Nat

/-- How a callback finishes: it returns, or it raises a failure; either way it
leaves a memory behind. -/
inductive Completion where
  | returned (m : Memory)
  | raised (e : Failure) (m : Memory)
deriving DecidableEq, Repr

/-- The memory a callback leaves behind. -/
def Completion.mem : Completion → Memory
  | .returned m => m
  | .raised _ m => m

/-- The failure a callback raised, when it raised one. -/
def Completion.failure : Completion → Option Failure
  | .returned _ => none
  | .raised e _ => some e

/-- The body of a callback with the signature of `PDEV_QUERY_RESULT_CALLBACK`. -/
abbrev CallbackBody :=
  HDEVQUERY → PVOID → PDEV_QUERY_RESULT_ACTION_DATA → Memory → Completion

/-- The functions of the process by address; `none` where no function lives. -/
abbrev CodeTable := PDEV_QUERY_RESULT_CALLBACK → Option CallbackBody

/-- The observable state: the memory and the calls made so far, oldest first. -/
structure World where
  mem : Memory
  trace : List Invocation
deriving DecidableEq, Repr

/-- Result of running the forwarder: it returned, a failure went through it, or
the run has no defined behaviour (a pointer that is not null and points to no
`ContextWrapper`, or a `Callback` field that is not the address of a function). -/
inductive Outcome where
  | returned (w : World)
  | raised (e : Failure) (w : World)
  | undefined
deriving DecidableEq, Repr

/-- The state after the run, when the run is defined. -/
def Outcome.world : Outcome → Option World
  | .returned w => some w
  | .raised _ w => some w
  | .undefined => none

/-- The calls made up to the end of the run, when the run is defined. -/
def Outcome.trace (o : Outcome) : Option (List Invocation) :=
  o.world.map World.trace

/-- The failure that left the run, when one did. -/
def Outcome.failure : Outcome → Option Failure
  | .raised e _ => some e
  | _ => none

/-! ## The code -/

/-- A call through the function pointer `fn` with three arguments: the call is
recorded, then the body of the target runs on the memory. -/
def callIndirect (code : CodeTable) (fn : PDEV_QUERY_RESULT_CALLBACK) (a1 : HDEVQUERY)
    (a2 : PVOID) (a3 : PDEV_QUERY_RESULT_ACTION_DATA) (w : World) : Outcome :=
  match code fn with
  | none => .undefined
  | some body =>
    match body a1 a2 a3 w.mem with
    | .returned m => .returned ⟨m, w.trace ++ [⟨fn, a1, a2, a3⟩]⟩
    | .raised e m => .raised e ⟨m, w.trace ++ [⟨fn, a1, a2, a3⟩]⟩

/-- The function `DevQueryCallback` (lines 12-22 of the source):
```
if (pContext == NULL) return;
ContextWrapper* ctx = (ContextWrapper*)pContext;
ctx->Callback(hDevQuery, ctx->Context, pActionData);
``` -/
def DevQueryCallback (code : CodeTable) (hDevQuery : HDEVQUERY) (pContext : PVOID)
    (pActionData : PDEV_QUERY_RESULT_ACTION_DATA) (w : World) : Outcome :=
  if pContext = NULL then .returned w
  else
    match w.mem.wrapperAt pContext with
    | none => .undefined
    | some ctx => callIndirect code ctx.Callback hDevQuery ctx.Context pActionData w

/-- Successive invocations of the forwarder by the device-query API, one per
event `(hDevQuery, pActionData)`, all with the same context pointer. Each
invocation runs on the state the one before left behind, also when a failure of
the callback went through it; a run with no defined behaviour ends the sequence. -/
def deliverAll (code : CodeTable) (pContext : PVOID) :
    List (HDEVQUERY × PDEV_QUERY_RESULT_ACTION_DATA) → World → Option World
  | [], w => some w
  | ev :: rest, w =>
    match (DevQueryCallback code ev.1 pContext ev.2 w).world with
    | none => none
    | some w1 => deliverAll code pContext rest w1

/-- The memory after the direct calls `body(h_1, c, d_1), ..., body(h_n, c, d_n)`,
made one after the other without the forwarder, each on the memory the one
before left behind. -/
def directCalls (body : CallbackBody) (c : PVOID) :
    List (HDEVQUERY × PDEV_QUERY_RESULT_ACTION_DATA) → Memory → Memory
  | [], m => m
  | ev :: rest, m => directCalls body c rest (body ev.1 c ev.2 m).mem

/-- The wrapper at `pContext` is not modified between the invocations of this
run: it holds `cw` when the first event is delivered, and after the body has
handled an event it still holds `cw` when the next one is delivered. Only the
events of the run at hand are looked at; what the body does to the wrapper on
the last event, or would do on other events, is left free. -/
def wrapperHeld (pContext : PVOID) (cw : ContextWrapper) (body : CallbackBody) :
    List (HDEVQUERY × PDEV_QUERY_RESULT_ACTION_DATA) → Memory → Bool
  | [], _ => true
  | ev :: rest, m =>
    decide (m.wrapperAt pContext = some cw) &&
      wrapperHeld pContext cw body rest (body ev.1 cw.Context ev.2 m).mem

/-- The precondition of the forwarder on its context: it is null, or it points
to a `ContextWrapper` whose `Callback` field is the address of a function. -/
def validContext (code : CodeTable) (w : World) (pContext : PVOID) : Bool :=
  pContext == NULL ||
    match w.mem.wrapperAt pContext with
    | none => false
    | some ctx => (code ctx.Callback).isSome

/-! ## Sample callbacks and states, used to run the code on concrete inputs -/

/-- A callback that stores its action-data pointer in the cell its context
points to, and returns. -/
def recordCallback : CallbackBody :=
  fun _ c d m => .returned ⟨m.wrappers, (c, d) :: m.cells⟩

/-- A callback that raises the failure `5` and leaves the memory as it was. -/
def failingCallback : CallbackBody :=
  fun _ _ _ m => .raised 5 m

/-- A callback that rewrites the wrapper at address `100` to
`(Callback = 0x2000, Context = 8)`, and returns. -/
def rewiringCallback : CallbackBody :=
  fun _ _ _ m => .returned ⟨(100, ⟨0x2000, 8⟩) :: m.wrappers, m.cells⟩

/-- A callback that rewrites the wrapper at address `100` when its action data
is `999`, and otherwise stores its action-data pointer in the cell its context
points to; it returns in both cases. -/
def guardedCallback : CallbackBody :=
  fun h c d m => if d = 999 then rewiringCallback h c d m else recordCallback h c d m

/-- A code table with four functions: `recordCallback` at `0x1000`,
`failingCallback` at `0x2000`, `rewiringCallback` at `0x3000`, `guardedCallback`
at `0x4000`. -/
def sampleCode : CodeTable := fun fn =>
  if fn = 0x1000 then some recordCallback
  else if fn = 0x2000 then some failingCallback
  else if fn = 0x3000 then some rewiringCallback
  else if fn = 0x4000 then some guardedCallback
  else none

/-- A state with one wrapper at address `100`, `(Callback = 0x1000, Context = 7)`,
one at `200`, `(Callback = 0x2000, Context = 0)`, one at `300`,
`(Callback = 0x1000, Context = NULL)`, and no call made yet. -/
def sampleWorld : World :=
  ⟨⟨[(100, ⟨0x1000, 7⟩), (200, ⟨0x2000, 0⟩), (300, ⟨0x1000, NULL⟩)], []⟩, []⟩

/-- The memory of `sampleWorld` after an earlier event `(5, 6)` went through the
wrapper at `200`: the trace holds that one call, `0x2000(5, 0, 6)`. -/
def laterWorld : World :=
  ⟨sampleWorld.mem, [⟨0x2000, 5, 0, 6⟩]⟩

/-- A state with one wrapper at address `100`, `(Callback = 0x4000, Context = 7)`,
and one earlier call, `0x2000(5, 0, 6)`, in its history. -/
def guardedWorld : World :=
  ⟨⟨[(100, ⟨0x4000, 7⟩)], []⟩, [⟨0x2000, 5, 0, 6⟩]⟩

/-! ## Shared lemmas -/

/-- With a null context the forwarder returns the state it was given. -/
theorem DevQueryCallback_null_eq (code : CodeTable) (h : HDEVQUERY)
    (d : PDEV_QUERY_RESULT_ACTION_DATA) (w : World) :
    DevQueryCallback code h NULL d w = .returned w := by
  simp [DevQueryCallback]

/-- With a context that is not null and points to a wrapper, the forwarder is
the indirect call through the wrapper's `Callback` with the wrapper's `Context`. -/
theorem DevQueryCallback_wrapped_eq (code : CodeTable) (h : HDEVQUERY) (ctx : PVOID)
    (d : PDEV_QUERY_RESULT_ACTION_DATA) (w : World) (cw : ContextWrapper)
    (hctx : ctx ≠ NULL) (hw : w.mem.wrapperAt ctx = some cw) :
    DevQueryCallback code h ctx d w = callIndirect code cw.Callback h cw.Context d w := by
  simp [DevQueryCallback, hctx, hw]

/-- The indirect call to a function of the table appends exactly one call to the
trace, whether the body returns or raises. -/
theorem callIndirect_trace (code : CodeTable) (fn : PDEV_QUERY_RESULT_CALLBACK)
    (a1 : HDEVQUERY) (a2 : PVOID) (a3 : PDEV_QUERY_RESULT_ACTION_DATA) (w : World)
    (body : CallbackBody) (hf : code fn = some body) :
    (callIndirect code fn a1 a2 a3 w).trace = some (w.trace ++ [⟨fn, a1, a2, a3⟩]) := by
  unfold callIndirect
  rw [hf]
  cases hb : body a1 a2 a3 w.mem <;> simp [hb, Outcome.trace, Outcome.world]

/-- The indirect call to a function of the table fails exactly as its body does. -/
theorem callIndirect_failure (code : CodeTable) (fn : PDEV_QUERY_RESULT_CALLBACK)
    (a1 : HDEVQUERY) (a2 : PVOID) (a3 : PDEV_QUERY_RESULT_ACTION_DATA) (w : World)
    (body : CallbackBody) (hf : code fn = some body) :
    (callIndirect code fn a1 a2 a3 w).failure = (body a1 a2 a3 w.mem).failure := by
  unfold callIndirect
  rw [hf]
  cases hb : body a1 a2 a3 w.mem <;> simp [hb, Outcome.failure, Completion.failure]

/-- The indirect call to a function of the table ends in the state made of the
memory its body leaves and the trace with the one call appended. -/
theorem callIndirect_world (code : CodeTable) (fn : PDEV_QUERY_RESULT_CALLBACK)
    (a1 : HDEVQUERY) (a2 : PVOID) (a3 : PDEV_QUERY_RESULT_ACTION_DATA) (w : World)
    (body : CallbackBody) (hf : code fn = some body) :
    (callIndirect code fn a1 a2 a3 w).world
      = some ⟨(body a1 a2 a3 w.mem).mem, w.trace ++ [⟨fn, a1, a2, a3⟩]⟩ := by
  unfold callIndirect
  rw [hf]
  cases hb : body a1 a2 a3 w.mem <;> simp [hb, Outcome.world, Completion.mem]

/-! ## Claims -/

/-- C1: for a context that is not null and points to a wrapper with
`Callback = f` and `Context = c`, where `f` is a function, `DevQueryCallback h ctx d`
invokes `f` exactly once, as `f(h, c, d)`. The trace after the run is the trace
before it followed by that single call, whose handle and data are the values
received and whose second argument is the wrapper's `Context` field, not `ctx`.
The call is really made: the memory after the run is the memory the body of `f`
leaves when run on `(h, c, d)` from the initial memory, and the run ends as that
body ends, with its failure when it raises one. -/
theorem DevQueryCallback_invokes_once (code : CodeTable) (h : HDEVQUERY) (ctx : PVOID)
    (d : PDEV_QUERY_RESULT_ACTION_DATA) (w : World) (f : PDEV_QUERY_RESULT_CALLBACK)
    (c : PVOID) (body : CallbackBody)
    (hctx : ctx ≠ NULL) (hw : w.mem.wrapperAt ctx = some ⟨f, c⟩) (hf : code f = some body) :
    (DevQueryCallback code h ctx d w).trace = some (w.trace ++ [⟨f, h, c, d⟩]) ∧
    (DevQueryCallback code h ctx d w).world
      = some ⟨(body h c d w.mem).mem, w.trace ++ [⟨f, h, c, d⟩]⟩ ∧
    (DevQueryCallback code h ctx d w).failure = (body h c d w.mem).failure := by
  rw [DevQueryCallback_wrapped_eq code h ctx d w ⟨f, c⟩ hctx hw]
  exact ⟨callIndirect_trace code f h c d w body hf, callIndirect_world code f h c d w body hf,
    callIndirect_failure code f h c d w body hf⟩

/-- Witness of C1: in a state with one earlier call in its history, the wrapper
at `100` holds `(0x1000, 7)`; the event `(42, 9)` is delivered as the one call
`0x1000(42, 7, 9)`, whose body stores `9` in the cell `7` and returns. -/
theorem DevQueryCallback_invokes_once_witness :
    (100 : PVOID) ≠ NULL ∧ laterWorld.mem.wrapperAt 100 = some ⟨0x1000, 7⟩ ∧
    sampleCode 0x1000 = some recordCallback ∧
    (DevQueryCallback sampleCode 42 100 9 laterWorld).trace
      = some [⟨0x2000, 5, 0, 6⟩, ⟨0x1000, 42, 7, 9⟩] ∧
    (DevQueryCallback sampleCode 42 100 9 laterWorld).world
      = some ⟨⟨laterWorld.mem.wrappers, [(7, 9)]⟩, [⟨0x2000, 5, 0, 6⟩, ⟨0x1000, 42, 7, 9⟩]⟩ ∧
    (DevQueryCallback sampleCode 42 100 9 laterWorld).failure = none :=
  ⟨by decide, by decide, rfl,
    DevQueryCallback_invokes_once sampleCode 42 100 9 laterWorld 0x1000 7 recordCallback
      (by decide) (by decide) rfl⟩

/-- C2: with a null context, for every handle and every action data, the
forwarder returns normally and the state after the call (memory and trace of
calls) is the state before it. -/
theorem DevQueryCallback_null_no_effect (code : CodeTable) (h : HDEVQUERY)
    (d : PDEV_QUERY_RESULT_ACTION_DATA) (w : World) :
    DevQueryCallback code h NULL d w = .returned w :=
  DevQueryCallback_null_eq code h d w

/-- C3: successive invocations with the same context, not null, pointing to a
wrapper `(Callback = f, Context = c)` that is not modified between the
invocations of the run, deliver the events `(h_1, d_1), ..., (h_n, d_n)` as
exactly the calls `f(h_1, c, d_1), ..., f(h_n, c, d_n)`, in that order: the same
`f` and the same `c` for every event, whatever the handles and the data are.
The calls are really made: the memory at the end is the memory that the direct
calls of the body of `f` on `(h_i, c, d_i)`, in that order, leave. -/
theorem deliverAll_routes_every_event (code : CodeTable) (ctx : PVOID)
    (f : PDEV_QUERY_RESULT_CALLBACK) (c : PVOID) (body : CallbackBody)
    (events : List (HDEVQUERY × PDEV_QUERY_RESULT_ACTION_DATA)) (w : World)
    (hctx : ctx ≠ NULL) (hf : code f = some body)
    (hheld : wrapperHeld ctx ⟨f, c⟩ body events w.mem = true) :
    deliverAll code ctx events w
      = some ⟨directCalls body c events w.mem,
          w.trace ++ events.map (fun ev => (⟨f, ev.1, c, ev.2⟩ : Invocation))⟩ := by
  induction events generalizing w with
  | nil => simp [deliverAll, directCalls]
  | cons ev rest ih =>
    simp only [wrapperHeld, Bool.and_eq_true, decide_eq_true_eq] at hheld
    have hrun : (DevQueryCallback code ev.1 ctx ev.2 w).world
        = some ⟨(body ev.1 c ev.2 w.mem).mem, w.trace ++ [⟨f, ev.1, c, ev.2⟩]⟩ := by
      rw [DevQueryCallback_wrapped_eq code ev.1 ctx ev.2 w ⟨f, c⟩ hctx hheld.1]
      exact callIndirect_world code f ev.1 c ev.2 w body hf
    simp only [deliverAll, hrun, directCalls]
    have hrest := ih ⟨(body ev.1 c ev.2 w.mem).mem,
      w.trace ++ [(⟨f, ev.1, c, ev.2⟩ : Invocation)]⟩ hheld.2
    rw [hrest]
    simp

/-- Witness of C3: three events on the wrapper at `100`, which holds `(0x4000, 7)`.
The function at `0x4000` would rewrite the wrapper on the data `999`, which is
not among the events, so the wrapper stays as it is during the run; the three
events reach `0x4000` with the context `7`, and the cell `7` is written three times. -/
theorem deliverAll_routes_every_event_witness :
    wrapperHeld 100 ⟨0x4000, 7⟩ guardedCallback [(1, 10), (2, 20), (3, 30)] guardedWorld.mem
      = true ∧
    directCalls guardedCallback 7 [(1, 10), (2, 20), (3, 30)] guardedWorld.mem
      = ⟨[(100, ⟨0x4000, 7⟩)], [(7, 30), (7, 20), (7, 10)]⟩ ∧
    deliverAll sampleCode 100 [(1, 10), (2, 20), (3, 30)] guardedWorld
      = some ⟨directCalls guardedCallback 7 [(1, 10), (2, 20), (3, 30)] guardedWorld.mem,
          guardedWorld.trace ++
            [(1, 10), (2, 20), (3, 30)].map (fun ev => (⟨0x4000, ev.1, 7, ev.2⟩ : Invocation))⟩ :=
  ⟨by decide, by decide,
    deliverAll_routes_every_event sampleCode 100 0x4000 7 guardedCallback
      [(1, 10), (2, 20), (3, 30)] guardedWorld (by decide) rfl (by decide)⟩

/-- C4: on a valid input (a context that is null, or that points to a wrapper
whose `Callback` is a function) the forwarder has defined behaviour, and a
failure leaves it if and only if the context is not null and the delegated call
`Callback(h, Context, d)` raises that very failure; when the delegated call
returns, the forwarder returns. -/
theorem DevQueryCallback_failure_iff (code : CodeTable) (h : HDEVQUERY) (ctx : PVOID)
    (d : PDEV_QUERY_RESULT_ACTION_DATA) (w : World)
    (hvalid : validContext code w ctx = true) :
    DevQueryCallback code h ctx d w ≠ .undefined ∧
    (∀ e, (DevQueryCallback code h ctx d w).failure = some e ↔
      (ctx ≠ NULL ∧ ∃ cw body, w.mem.wrapperAt ctx = some cw ∧
        code cw.Callback = some body ∧ (body h cw.Context d w.mem).failure = some e)) ∧
    (∀ cw body, ctx ≠ NULL → w.mem.wrapperAt ctx = some cw → code cw.Callback = some body →
      (body h cw.Context d w.mem).failure = none →
      ∃ w1, DevQueryCallback code h ctx d w = .returned w1) := by
  by_cases hnull : ctx = NULL
  · subst hnull
    rw [DevQueryCallback_null_eq]
    refine ⟨fun hu => Outcome.noConfusion hu, fun e => ?_, fun _ _ hne => absurd rfl hne⟩
    constructor
    · intro he
      simp [Outcome.failure] at he
    · rintro ⟨hne, _⟩
      exact absurd rfl hne
  · cases hcw : w.mem.wrapperAt ctx with
    | none => simp [validContext, hnull, hcw] at hvalid
    | some cw =>
      cases hbody : code cw.Callback with
      | none => simp [validContext, hnull, hcw, hbody] at hvalid
      | some body =>
        rw [DevQueryCallback_wrapped_eq code h ctx d w cw hnull hcw]
        have hfail := callIndirect_failure code cw.Callback h cw.Context d w body hbody
        refine ⟨?_, ?_, ?_⟩
        · unfold callIndirect
          rw [hbody]
          cases hb : body h cw.Context d w.mem <;> simp [hb]
        · intro e
          rw [hfail]
          constructor
          · intro he
            exact ⟨hnull, cw, body, rfl, hbody, he⟩
          · rintro ⟨_, cw1, body1, h1, h2, h3⟩
            cases h1
            rw [hbody] at h2
            cases h2
            exact h3
        · intro cw1 body1 _ h1 h2 h3
          cases h1
          rw [hbody] at h2
          cases h2
          unfold callIndirect
          rw [hbody]
          cases hb : body h cw.Context d w.mem with
          | returned m => simp [hb]
          | raised e m => simp [hb, Completion.failure] at h3

/-- Witness of C4: the wrapper at `200` holds `(0x2000, 0)` and the function at
`0x2000` raises the failure `5`; the forwarder lets exactly that failure through. -/
theorem DevQueryCallback_failure_iff_witness :
    validContext sampleCode sampleWorld 200 = true ∧
    (DevQueryCallback sampleCode 42 200 9 sampleWorld).failure = some 5 :=
  ⟨by decide,
    ((DevQueryCallback_failure_iff sampleCode 42 200 9 sampleWorld (by decide)).2.1 5).mpr
      ⟨by decide, ⟨0x2000, 0⟩, failingCallback, by decide, rfl, rfl⟩⟩

/-- C5: the forwarder has no effect of its own. For a context that is not null
and points to a wrapper `(f, c)`, the run is the single call `f(h, c, d)` made
from the initial state: the memory after the run is the memory the body of `f`
leaves, and the trace gains that one call. When the body leaves the wrapper at
`ctx` as it was, the wrapper holds the same `Callback` and `Context` after the run. -/
theorem DevQueryCallback_no_own_effect (code : CodeTable) (h : HDEVQUERY) (ctx : PVOID)
    (d : PDEV_QUERY_RESULT_ACTION_DATA) (w : World) (f : PDEV_QUERY_RESULT_CALLBACK)
    (c : PVOID) (body : CallbackBody)
    (hctx : ctx ≠ NULL) (hw : w.mem.wrapperAt ctx = some ⟨f, c⟩) (hf : code f = some body) :
    (DevQueryCallback code h ctx d w).world
      = some ⟨(body h c d w.mem).mem, w.trace ++ [⟨f, h, c, d⟩]⟩ ∧
    ((body h c d w.mem).mem.wrapperAt ctx = w.mem.wrapperAt ctx →
      ∃ w1, (DevQueryCallback code h ctx d w).world = some w1 ∧
        w1.mem.wrapperAt ctx = some ⟨f, c⟩) := by
  have hrun : (DevQueryCallback code h ctx d w).world
      = some ⟨(body h c d w.mem).mem, w.trace ++ [⟨f, h, c, d⟩]⟩ := by
    rw [DevQueryCallback_wrapped_eq code h ctx d w ⟨f, c⟩ hctx hw]
    exact callIndirect_world code f h c d w body hf
  refine ⟨hrun, fun hsame => ⟨_, hrun, ?_⟩⟩
  rw [hsame, hw]

/-- Witness of C5: one event on the wrapper at `100`; the memory after the run
is the one `recordCallback` leaves, with the cell `7` set to `9`. -/
theorem DevQueryCallback_no_own_effect_witness :
    (DevQueryCallback sampleCode 42 100 9 sampleWorld).world
      = some ⟨(recordCallback 42 7 9 sampleWorld.mem).mem,
          sampleWorld.trace ++ [⟨0x1000, 42, 7, 9⟩]⟩ :=
  (DevQueryCallback_no_own_effect sampleCode 42 100 9 sampleWorld 0x1000 7 recordCallback
    (by decide) (by decide) rfl).1

/-- C7: the null check is on the outer context pointer only. For a context that
is not null and points to a wrapper `(Callback = f, Context = NULL)`, the
forwarder still invokes `f` exactly once, as `f(h, NULL, d)`: the trace gains
that one call, the memory after the run is the memory the body of `f` leaves
when run on `(h, NULL, d)`, and the run ends as that body ends. -/
theorem DevQueryCallback_null_inner_context (code : CodeTable) (h : HDEVQUERY) (ctx : PVOID)
    (d : PDEV_QUERY_RESULT_ACTION_DATA) (w : World) (f : PDEV_QUERY_RESULT_CALLBACK)
    (body : CallbackBody)
    (hctx : ctx ≠ NULL) (hw : w.mem.wrapperAt ctx = some ⟨f, NULL⟩) (hf : code f = some body) :
    (DevQueryCallback code h ctx d w).trace = some (w.trace ++ [⟨f, h, NULL, d⟩]) ∧
    (DevQueryCallback code h ctx d w).world
      = some ⟨(body h NULL d w.mem).mem, w.trace ++ [⟨f, h, NULL, d⟩]⟩ ∧
    (DevQueryCallback code h ctx d w).failure = (body h NULL d w.mem).failure := by
  rw [DevQueryCallback_wrapped_eq code h ctx d w ⟨f, NULL⟩ hctx hw]
  exact ⟨callIndirect_trace code f h NULL d w body hf,
    callIndirect_world code f h NULL d w body hf,
    callIndirect_failure code f h NULL d w body hf⟩

/-- Witness of C7: in a state with one earlier call in its history, the wrapper
at `300` holds `(0x1000, NULL)`; the event `(42, 9)` is delivered as
`0x1000(42, NULL, 9)`, whose body stores `9` in the cell at address `NULL` and
returns. -/
theorem DevQueryCallback_null_inner_context_witness :
    (300 : PVOID) ≠ NULL ∧ laterWorld.mem.wrapperAt 300 = some ⟨0x1000, NULL⟩ ∧
    (DevQueryCallback sampleCode 42 300 9 laterWorld).trace
      = some [⟨0x2000, 5, 0, 6⟩, ⟨0x1000, 42, NULL, 9⟩] ∧
    (DevQueryCallback sampleCode 42 300 9 laterWorld).world
      = some ⟨⟨laterWorld.mem.wrappers, [(NULL, 9)]⟩,
          [⟨0x2000, 5, 0, 6⟩, ⟨0x1000, 42, NULL, 9⟩]⟩ ∧
    (DevQueryCallback sampleCode 42 300 9 laterWorld).failure = none :=
  ⟨by decide, by decide,
    DevQueryCallback_null_inner_context sampleCode 42 300 9 laterWorld 0x1000 recordCallback
      (by decide) (by decide) rfl⟩

end DevQueryHelper
